import Mathlib

/-!
Verification of the websocket event-dispatch engine of `binance-rs`
(`src/websockets.rs`), as a shallow embedding in Lean 4.

The embedding mirrors `WebSockets::connect`, `WebSockets::disconnect` and
`WebSockets::event_loop` from the source.  External collaborators that are
not part of this repository (the `url` crate's `Url::parse`, the
`tungstenite` transport, `serde_json` parsing, and the typed record
decoders living in the missing `crate::model`) are passed in as explicit
function arguments or carried as data on the inputs, so that every
definition here is executable and every branch of the source is
represented.
-/

namespace BinanceWS

/-! ### JSON values (`serde_json::Value`) -/

/-- The subset of `serde_json::Value` relevant to the engine: null,
booleans, (integer) numbers, strings, arrays and objects.  Objects are
association lists in insertion order, as produced by `serde_json`. -/
inductive Json where
  | null
  | bool (b : Bool)
  | num (n : Int)
  | str (s : String)
  | arr (elems : List Json)
  | obj (fields : List (String × Json))

/-- `serde_json`'s `Index<&str>`: `v[key]` yields the value stored under
`key` when `v` is an object that has it, and `Null` in every other case
(including indexing into strings, arrays, numbers, …). -/
def Json.index : Json → String → Json
  | .obj fields, key =>
    match fields.find? (fun f => f.1 == key) with
    | some f => f.2
    | none => .null
  | _, _ => .null

/-- `serde_json::Value::as_str`: `some s` exactly when the value is a JSON
string. -/
def Json.asStr : Json → Option String
  | .str s => some s
  | _ => none

/-- Whether a JSON value is the literal `Null`. -/
def Json.isNull : Json → Bool
  | .null => true
  | _ => false

/-- Whether `needle` occurs contiguously in `hay` (checked at every
suffix). -/
def occursWithin (needle : List Char) : List Char → Bool
  | [] => needle.isEmpty
  | c :: rest => needle.isPrefixOf (c :: rest) || occursWithin needle rest

/-- Rust's substring search (`str::find(..) != None` and
`str::contains`): the needle occurs contiguously in the haystack. -/
def strContains (hay needle : String) : Bool :=
  occursWithin needle.toList hay.toList

/-! ### Constants from `websockets.rs` (lines 12-25) -/

def WEBSOCKET_URL : String := "wss://fstream.binance.com/stream?streams="

def OUTBOUND_ACCOUNT_INFO : String := "outboundAccountInfo"
def EXECUTION_REPORT : String := "executionReport"
def KLINE : String := "kline"
def AGGREGATED_TRADE : String := "aggTrade"
def DEPTH_ORDERBOOK : String := "depthUpdate"
def PARTIAL_ORDERBOOK : String := "lastUpdateId"
def DAYTICKER : String := "24hrTicker"
def ACCOUNT_UPDATE : String := "ACCOUNT_UPDATE"
def ORDER_TRADE_UPDATE : String := "ORDER_TRADE_UPDATE"

/-! ### Events and errors -/

/-- The variant tags of the `WebsocketEvent` enum. -/
inductive EventKind where
  | accountUpdate
  | orderTrade
  | trade
  | orderBook
  | dayTicker
  | kline
  | depthOrderBook
  | bookTicker
  | futuresAccountUpdate
  | orderTradeUpdate
  | futuresFunding
deriving DecidableEq

/-- A dispatched `WebsocketEvent`: a variant tag together with the decoded
payload.  The typed records of `crate::model` are not in the sources, so
the decoded content is kept opaque as a JSON value. -/
structure WebsocketEvent where
  kind : EventKind
  payload : Json

/-- The crate's `error_chain` error value, by provenance:
`msg` is a `bail!`-produced string error, the other constructors are the
foreign errors converted by `?` (URL parsing, the transport's read/close,
`serde_json` parsing of a frame, and typed decoding of a payload). -/
inductive Err where
  | msg (s : String)
  | url (e : String)
  | transport (e : String)
  | json (e : String)
  | decode (e : String)
deriving DecidableEq

/-- Modelled from the spec: the typed decoders (`serde_json::from_str`
into the records of `crate::model`, a file not present in the sources)
and the registered consumer callback.  Per the spec the decoded records
are opaque to the engine and decoding may fail on schema mismatch, so the
decoder is an arbitrary function from the variant tag and the raw payload
string to an opaque decoded value or an error; the handler is the
consumer callback, which may fail. -/
structure LoopEnv where
  decode : EventKind → String → Except String Json
  handler : WebsocketEvent → Except Err Unit

/-! ### Frames -/

/-- A `tungstenite::Message`.  A text frame carries its raw payload
together with the result of `serde_json::from_str::<Value>` on that
payload (the parser is external to this repository, so its verdict is
carried as data on the frame).  A close frame carries the optional close
frame rendered by its `Debug` text. -/
inductive Message where
  | text (msg : String) (parsed : Except String Json)
  | ping
  | pong
  | binary
  | close (reason : Option String)

/-- The result of one `read_message` call: a frame, or a transport
error. -/
abbrev ReadResult := Except String Message

/-- Rust's `format!("{:?}", e)` on the optional close frame carried by a
close message, modelled on `Option`'s `Debug` rendering. -/
def debugFmt : Option String → String
  | none => "None"
  | some r => "Some(" ++ r ++ ")"

/-! ### The classification and dispatch engine (`event_loop`, lines 88-151) -/

/-- One dispatch arm of `event_loop`: decode the payload string with the
variant's typed decoder (`from_str(data_msg)?`) and, on success, invoke
the consumer callback (`(self.handler)(..)?`).  Returns the list of
callback invocations made (at most one) and the error, if any, that `?`
propagates. -/
def dispatch (env : LoopEnv) (kind : EventKind) (dataMsg : String) :
    List WebsocketEvent × Option Err :=
  match env.decode kind dataMsg with
  | .error e => ([], some (.decode e))
  | .ok payload =>
    match env.handler ⟨kind, payload⟩ with
    | .error e => ([⟨kind, payload⟩], some e)
    | .ok _ => ([⟨kind, payload⟩], none)

/-- The structural best-bid/offer check of lines 102-107:
`value["u"] != Null && value["s"] != Null && value["b"] != Null &&
value["B"] != Null && value["a"] != Null && value["A"] != Null`. -/
def sixKeyCheck (value : Json) : Bool :=
  !(value.index "u").isNull && !(value.index "s").isNull &&
  !(value.index "b").isNull && !(value.index "B").isNull &&
  !(value.index "a").isNull && !(value.index "A").isNull

/-- The classification chain of lines 97-138, as the ordered rule table
it implements: first the `markPrice` test on the stream name, then the
six-key structural check on `value` (= the envelope's `data`), then the
nine substring markers searched in the raw frame text `msg`, in source
order.  Returns the selected variant tag, or `none` when no branch
fires. -/
def classify (msg streamName : String) (value : Json) : Option EventKind :=
  bif strContains streamName "markPrice" then some .futuresFunding
  else bif sixKeyCheck value then some .bookTicker
  else bif strContains msg OUTBOUND_ACCOUNT_INFO then some .accountUpdate
  else bif strContains msg EXECUTION_REPORT then some .orderTrade
  else bif strContains msg AGGREGATED_TRADE then some .trade
  else bif strContains msg DAYTICKER then some .dayTicker
  else bif strContains msg KLINE then some .kline
  else bif strContains msg PARTIAL_ORDERBOOK then some .orderBook
  else bif strContains msg DEPTH_ORDERBOOK then some .depthOrderBook
  else bif strContains msg ACCOUNT_UPDATE then some .futuresAccountUpdate
  else bif strContains msg ORDER_TRADE_UPDATE then some .orderTradeUpdate
  else none

/-- Processing of one text frame, mirroring lines 88-146 of
`event_loop`: parse the raw text (`?` on failure), require
`stream_val["stream"]` to be a string (anything else falls to the `_`
arm and is ignored), take `value = stream_val["data"]`, require
`value.as_str()` to be `Some` (anything else falls to the `None` arm and
is ignored), then select a branch with `classify` and run its decode and
dispatch; no branch firing does nothing. -/
def processText (env : LoopEnv) (msg : String) (parsed : Except String Json) :
    List WebsocketEvent × Option Err :=
  match parsed with
  | .error e => ([], some (.json e))
  | .ok streamVal =>
    match streamVal.index "stream" with
    | .str streamName =>
      match (streamVal.index "data").asStr with
      | some dataMsg =>
        match classify msg streamName (streamVal.index "data") with
        | some k => dispatch env k dataMsg
        | none => ([], none)
      | none => ([], none)
    | _ => ([], none)

/-- Processing of one frame (the `match message` of lines 87-151): text
frames are classified and dispatched, ping/pong/binary frames are
ignored, a close frame raises the `bail!`-ed "Disconnected" error
carrying the rendered close reason. -/
def processMessage (env : LoopEnv) : Message → List WebsocketEvent × Option Err
  | .text msg parsed => processText env msg parsed
  | .ping => ([], none)
  | .pong => ([], none)
  | .binary => ([], none)
  | .close reason => ([], some (.msg ("Disconnected " ++ debugFmt reason)))

/-- How a run of `event_loop` ended: `ok` is the clean `Ok(())` exit on a
false flag read, `err` is an early `return Err(..)`, and `pending` means
the run is still going when the modelled trace (the finite list of flag
reads, or the available frames of a read that would block) is
exhausted. -/
inductive Outcome where
  | ok
  | err (e : Err)
  | pending
deriving DecidableEq

/-- Observable result of a run: how it ended, the consumer-callback
invocations in order, and how many `read_message` calls were made. -/
structure RunResult where
  outcome : Outcome
  callbacks : List WebsocketEvent
  framesRead : Nat

/-- Combine the processing of the frame just read with the run of the
remaining iterations: an error ends the run there (with the invocations
that frame made and its single read); otherwise the frame's invocations
and read are prepended to the rest of the run. -/
def afterProcess (pr : List WebsocketEvent × Option Err) (r : RunResult) :
    RunResult :=
  match pr with
  | (evs, some e) => ⟨.err e, evs, 1⟩
  | (evs, none) => ⟨r.outcome, evs ++ r.callbacks, r.framesRead + 1⟩

/-- The `event_loop` of lines 82-155.  Each iteration consumes one read
of the run flag (`running.load(Ordering::Relaxed)`); a false read exits
with `Ok(())`.  While the flag reads true: if no socket is held the body
does nothing and the loop spins; otherwise one frame is read from the
connection (a transport error propagates via `?`) and processed.  An
error from processing ends the run with that error; otherwise the loop
continues on the remaining flag reads and frames. -/
def eventLoop (env : LoopEnv) (socketHeld : Bool) :
    List Bool → List ReadResult → RunResult
  | [], _ => ⟨.pending, [], 0⟩
  | false :: _, _ => ⟨.ok, [], 0⟩
  | true :: fs, frames =>
    if socketHeld then
      match frames with
      | [] => ⟨.pending, [], 0⟩
      | .error e :: _ => ⟨.err (.transport e), [], 1⟩
      | .ok m :: rest =>
        afterProcess (processMessage env m) (eventLoop env socketHeld fs rest)
    else eventLoop env socketHeld fs frames

/-! ### The connection manager (`connect` / `disconnect`, lines 58-80) -/

/-- The connection-holding part of the `WebSockets` struct: at most one
live socket handle (the `(WebSocket<AutoStream>, Response)` pair, kept
abstract as `σ`). -/
structure WSState (σ : Type) where
  socket : Option σ

/-- `WebSockets::connect` (lines 58-71): build
`wss = format!("{}{}", WEBSOCKET_URL, endpoint)`, parse it with the
external `Url::parse` (whose error propagates via `?`), and run the
external `tungstenite::connect`: on success store the answer in the
socket slot, on failure `bail!("Error during handshake {e}")` leaving the
state untouched. -/
def connect {σ : Type} (st : WSState σ) (endpoint : String)
    (urlParse : String → Except String String)
    (wsConnect : String → Except String σ) : WSState σ × Except Err Unit :=
  match urlParse (WEBSOCKET_URL ++ endpoint) with
  | .error e => (st, .error (.url e))
  | .ok u =>
    match wsConnect u with
    | .ok answer => (⟨some answer⟩, .ok ())
    | .error e => (st, .error (.msg ("Error during handshake " ++ e)))

/-- `WebSockets::disconnect` (lines 73-80): if a socket is held, call the
external `close` on it (its error propagates via `?`); otherwise
`bail!("Not able to close the connection")`.  The socket slot itself is
never modified. -/
def disconnect {σ : Type} (st : WSState σ)
    (closeSock : σ → Except String Unit) : WSState σ × Except Err Unit :=
  match st.socket with
  | some s =>
    match closeSock s with
    | .ok _ => (st, .ok ())
    | .error e => (st, .error (.transport e))
  | none => (st, .error (.msg "Not able to close the connection"))

/-- Whether an error is the handshake failure produced by `connect`'s
`bail!("Error during handshake {e}")`. -/
def isHandshakeError : Err → Bool
  | .msg s => List.isPrefixOf "Error during handshake ".toList s.toList
  | _ => false

/-- The exact fall-through condition of `processText` on a successfully
parsed frame: either the frame is not a `{stream, data}` envelope with a
string `stream`, or `data` is not a JSON string, or `data` is a string
but no classification rule fires (not a `markPrice` stream, six-key check
false, none of the nine markers occurs in the raw text). -/
def matchesNoRule (msg : String) (v : Json) : Bool :=
  match v.index "stream" with
  | .str streamName =>
    match (v.index "data").asStr with
    | some _ =>
      !(strContains streamName "markPrice") &&
      !(sixKeyCheck (v.index "data")) &&
      !(strContains msg OUTBOUND_ACCOUNT_INFO) &&
      !(strContains msg EXECUTION_REPORT) &&
      !(strContains msg AGGREGATED_TRADE) &&
      !(strContains msg DAYTICKER) &&
      !(strContains msg KLINE) &&
      !(strContains msg PARTIAL_ORDERBOOK) &&
      !(strContains msg DEPTH_ORDERBOOK) &&
      !(strContains msg ACCOUNT_UPDATE) &&
      !(strContains msg ORDER_TRADE_UPDATE)
    | none => true
  | _ => true

/-! ### Concrete instantiations used by the claim theorems.
Frame texts are the exact raw JSON payloads; the accompanying `Json`
values are their parses. -/

/-- A typed decoder that always succeeds, keeping the raw payload
string. -/
def okDecode : EventKind → String → Except String Json :=
  fun _ s => .ok (.str s)

/-- A consumer callback that always succeeds. -/
def okHandler : WebsocketEvent → Except Err Unit := fun _ => .ok ()

/-- A consumer callback that always fails. -/
def cbFailHandler : WebsocketEvent → Except Err Unit :=
  fun _ => .error (.msg "callback failed")

/-- Environment with an always-succeeding decoder and callback. -/
def env0 : LoopEnv := ⟨okDecode, okHandler⟩

/-- Environment whose consumer callback always fails. -/
def envCb : LoopEnv := ⟨okDecode, cbFailHandler⟩

/-- Raw text of the spec's aggTrade scenario:
`{"stream":"btcusdt@aggTrade","data":{"e":"aggTrade","s":"BTCUSDT","p":"50000.00"}}`,
whose `data` field is a JSON object. -/
def c1msg : String :=
  "\x7b\"stream\":\"btcusdt@aggTrade\",\"data\":\x7b\"e\":\"aggTrade\",\"s\":\"BTCUSDT\",\"p\":\"50000.00\"\x7d\x7d"

/-- The parse of `c1msg`. -/
def c1json : Json :=
  .obj [("stream", .str "btcusdt@aggTrade"),
        ("data", .obj [("e", .str "aggTrade"), ("s", .str "BTCUSDT"),
                       ("p", .str "50000.00")])]

/-- Raw text of a bare (unenveloped) array of 24hrTicker objects:
`[{"e":"24hrTicker","s":"BTCUSDT"}]`. -/
def c2msg : String := "[\x7b\"e\":\"24hrTicker\",\"s\":\"BTCUSDT\"\x7d]"

/-- The parse of `c2msg`. -/
def c2json : Json :=
  .arr [.obj [("e", .str "24hrTicker"), ("s", .str "BTCUSDT")]]

/-- Raw text of a bare (unenveloped) 24hrTicker object:
`{"e":"24hrTicker","s":"ETHUSDT"}`. -/
def c2wmsg : String := "\x7b\"e\":\"24hrTicker\",\"s\":\"ETHUSDT\"\x7d"

/-- The parse of `c2wmsg`. -/
def c2wjson : Json := .obj [("e", .str "24hrTicker"), ("s", .str "ETHUSDT")]

/-- Raw text of an enveloped frame whose `data` object has all six keys
`u, s, b, B, a, A` and also carries the marker substring `kline` in an
unrelated field. -/
def c3msg : String :=
  "\x7b\"stream\":\"btcusdt@bookTicker\",\"data\":\x7b\"u\":400900217,\"s\":\"BTCUSDT\",\"b\":\"25.35190000\",\"B\":\"31.21000000\",\"a\":\"25.36520000\",\"A\":\"40.66000000\",\"note\":\"kline\"\x7d\x7d"

/-- The parse of `c3msg`. -/
def c3json : Json :=
  .obj [("stream", .str "btcusdt@bookTicker"),
        ("data", .obj [("u", .num 400900217), ("s", .str "BTCUSDT"),
                       ("b", .str "25.35190000"), ("B", .str "31.21000000"),
                       ("a", .str "25.36520000"), ("A", .str "40.66000000"),
                       ("note", .str "kline")])]

/-- The two-character payload string `{}`. -/
def gfData : String := "\x7b\x7d"

/-- Raw text of an enveloped frame whose `data` field is the JSON string
`"{}"`: `{"stream":"btcusdt@aggTrade","data":"{}"}`.  This is the shape
the code actually dispatches (data a string, `aggTrade` in the raw
text). -/
def gfMsg : String :=
  "\x7b\"stream\":\"btcusdt@aggTrade\",\"data\":\"\x7b\x7d\"\x7d"

/-- The parse of `gfMsg`. -/
def gfJson : Json :=
  .obj [("stream", .str "btcusdt@aggTrade"), ("data", .str gfData)]

/-- The text frame for `gfMsg`. -/
def goodFrame : Message := .text gfMsg (.ok gfJson)

/-- The single event `goodFrame` dispatches under `okDecode`. -/
def goodEvent : WebsocketEvent := ⟨.trade, .str gfData⟩

/-- Raw text of a structurally valid enveloped frame matching no
classification rule: `{"stream":"btcusdt@foo","data":"xyz"}`. -/
def c7msg : String := "\x7b\"stream\":\"btcusdt@foo\",\"data\":\"xyz\"\x7d"

/-- The parse of `c7msg`. -/
def c7json : Json := .obj [("stream", .str "btcusdt@foo"), ("data", .str "xyz")]

/-- The text frame for `c7msg`. -/
def c7frame : Message := .text c7msg (.ok c7json)

/-- A disconnected state over a concrete socket type. -/
def st0 : WSState Nat := ⟨none⟩

/-- A connected state holding socket handle `5`. -/
def st1 : WSState Nat := ⟨some 5⟩

/-- A close primitive that always succeeds. -/
def closeOk : Nat → Except String Unit := fun _ => .ok ()

/-- A URL parser that always fails. -/
def badParse : String → Except String String :=
  fun _ => .error "relative URL without a base"

/-- A URL parser that always succeeds with the input itself. -/
def okParse : String → Except String String := fun s => .ok s

/-- A handshake that always succeeds with socket handle `7`. -/
def wsOk : String → Except String Nat := fun _ => .ok 7

/-- A handshake that always fails. -/
def wsFail : String → Except String Nat := fun _ => .error "connection refused"

/-! ### Helper lemmas about one loop step -/

/-- Unfolding one loop iteration that reads a frame successfully. -/
lemma eventLoop_read (env : LoopEnv) (m : Message) (fs : List Bool)
    (rest : List ReadResult) :
    eventLoop env true (true :: fs) (.ok m :: rest)
      = afterProcess (processMessage env m) (eventLoop env true fs rest) :=
  rfl

/-- An iteration whose frame processing raises an error ends the run with
that error, the invocations that were already made, and exactly this one
read. -/
lemma eventLoop_read_err (env : LoopEnv) (m : Message)
    (evs : List WebsocketEvent) (er : Err) (fs : List Bool)
    (rest : List ReadResult) (h : processMessage env m = (evs, some er)) :
    eventLoop env true (true :: fs) (.ok m :: rest) = ⟨.err er, evs, 1⟩ := by
  rw [eventLoop_read, h]
  rfl

/-- An iteration whose frame processing succeeds continues the loop on
the remaining flag reads and frames, prepending its invocations and
counting its read. -/
lemma eventLoop_read_cont (env : LoopEnv) (m : Message)
    (evs : List WebsocketEvent) (fs : List Bool) (rest : List ReadResult)
    (h : processMessage env m = (evs, none)) :
    eventLoop env true (true :: fs) (.ok m :: rest)
      = ⟨(eventLoop env true fs rest).outcome,
         evs ++ (eventLoop env true fs rest).callbacks,
         (eventLoop env true fs rest).framesRead + 1⟩ := by
  rw [eventLoop_read, h]
  rfl

/-- A dispatch arm invokes the consumer callback at most once. -/
lemma dispatch_length (env : LoopEnv) (k : EventKind) (d : String) :
    (dispatch env k d).1.length ≤ 1 := by
  rcases hd : env.decode k d with e | payload
  · simp [dispatch, hd]
  · rcases hh : env.handler ⟨k, payload⟩ with e | u <;> simp [dispatch, hd, hh]

/-- Every invocation a dispatch arm makes carries that arm's variant
tag. -/
lemma dispatch_kind (env : LoopEnv) (k : EventKind) (d : String)
    (ev : WebsocketEvent) (h : ev ∈ (dispatch env k d).1) : ev.kind = k := by
  rcases hd : env.decode k d with e | payload
  · simp [dispatch, hd] at h
  · rcases hh : env.handler ⟨k, payload⟩ with e | u <;>
      (simp [dispatch, hd, hh] at h; rw [h])

/-- Classifying one text frame invokes the consumer callback at most
once. -/
lemma processText_length (env : LoopEnv) (msg : String)
    (p : Except String Json) : (processText env msg p).1.length ≤ 1 := by
  rcases p with e | v
  · simp [processText]
  · cases hs : v.index "stream"
    case str streamName =>
      cases ha : (v.index "data").asStr
      case none => simp [processText, hs, ha]
      case some dataMsg =>
        cases hc : classify msg streamName (v.index "data")
        case none => simp [processText, hs, ha, hc]
        case some k =>
          simp only [processText, hs, ha, hc]
          exact dispatch_length env k dataMsg
    all_goals simp [processText, hs]

/-- Processing one frame invokes the consumer callback at most once. -/
lemma processMessage_length (env : LoopEnv) (m : Message) :
    (processMessage env m).1.length ≤ 1 := by
  cases m with
  | text msg p => exact processText_length env msg p
  | ping => simp [processMessage]
  | pong => simp [processMessage]
  | binary => simp [processMessage]
  | close reason => simp [processMessage]

/-- A value that `as_str` accepts is a JSON string, on which every keyed
lookup yields `Null`, so the six-key structural check is false. -/
lemma asStr_sixKeyCheck {v : Json} {s : String} (h : v.asStr = some s) :
    sixKeyCheck v = false := by
  cases v <;> simp [Json.asStr] at h
  rfl

/-- If every rule condition is false, the rule table selects nothing. -/
lemma classify_none (msg streamName : String) (value : Json)
    (h1 : strContains streamName "markPrice" = false)
    (h2 : sixKeyCheck value = false)
    (h3 : strContains msg OUTBOUND_ACCOUNT_INFO = false)
    (h4 : strContains msg EXECUTION_REPORT = false)
    (h5 : strContains msg AGGREGATED_TRADE = false)
    (h6 : strContains msg DAYTICKER = false)
    (h7 : strContains msg KLINE = false)
    (h8 : strContains msg PARTIAL_ORDERBOOK = false)
    (h9 : strContains msg DEPTH_ORDERBOOK = false)
    (h10 : strContains msg ACCOUNT_UPDATE = false)
    (h11 : strContains msg ORDER_TRADE_UPDATE = false) :
    classify msg streamName value = none := by
  unfold classify
  simp [h1, h2, h3, h4, h5, h6, h7, h8, h9, h10, h11]

/-- Inversion for a boolean conditional known to produce a value. -/
lemma cond_eq_inv {α : Type} {b : Bool} {x y z : α} (h : cond b x y = z) :
    (b = true ∧ x = z) ∨ (b = false ∧ y = z) := by
  cases b
  · exact Or.inr ⟨rfl, h⟩
  · exact Or.inl ⟨rfl, h⟩

/-- The rule table selects the best-bid/offer variant only when the
six-key structural check holds. -/
lemma classify_bookTicker (msg streamName : String) (value : Json)
    (h : classify msg streamName value = some .bookTicker) :
    sixKeyCheck value = true := by
  unfold classify at h
  rcases cond_eq_inv h with ⟨hb, h⟩ | ⟨hb, h⟩
  · exact absurd (Option.some.inj h) (by decide)
  rcases cond_eq_inv h with ⟨hb, h⟩ | ⟨hb, h⟩
  · exact hb
  rcases cond_eq_inv h with ⟨hb, h⟩ | ⟨hb, h⟩
  · exact absurd (Option.some.inj h) (by decide)
  rcases cond_eq_inv h with ⟨hb, h⟩ | ⟨hb, h⟩
  · exact absurd (Option.some.inj h) (by decide)
  rcases cond_eq_inv h with ⟨hb, h⟩ | ⟨hb, h⟩
  · exact absurd (Option.some.inj h) (by decide)
  rcases cond_eq_inv h with ⟨hb, h⟩ | ⟨hb, h⟩
  · exact absurd (Option.some.inj h) (by decide)
  rcases cond_eq_inv h with ⟨hb, h⟩ | ⟨hb, h⟩
  · exact absurd (Option.some.inj h) (by decide)
  rcases cond_eq_inv h with ⟨hb, h⟩ | ⟨hb, h⟩
  · exact absurd (Option.some.inj h) (by decide)
  rcases cond_eq_inv h with ⟨hb, h⟩ | ⟨hb, h⟩
  · exact absurd (Option.some.inj h) (by decide)
  rcases cond_eq_inv h with ⟨hb, h⟩ | ⟨hb, h⟩
  · exact absurd (Option.some.inj h) (by decide)
  rcases cond_eq_inv h with ⟨hb, h⟩ | ⟨hb, h⟩
  · exact absurd (Option.some.inj h) (by decide)
  exact Option.noConfusion h

/-- A frame on which the fall-through condition holds is classified to
nothing: no event and no error. -/
lemma matchesNoRule_drop (env : LoopEnv) (msg : String) (v : Json)
    (h : matchesNoRule msg v = true) :
    processText env msg (.ok v) = ([], none) := by
  cases hs : v.index "stream"
  case str streamName =>
    cases ha : (v.index "data").asStr
    case none => simp [processText, hs, ha]
    case some dataMsg =>
      simp only [matchesNoRule, hs, ha, Bool.and_eq_true, Bool.not_eq_true'] at h
      obtain ⟨⟨⟨⟨⟨⟨⟨⟨⟨⟨h1, h2⟩, h3⟩, h4⟩, h5⟩, h6⟩, h7⟩, h8⟩, h9⟩, h10⟩, h11⟩ := h
      simp [processText, hs, ha,
        classify_none msg streamName (v.index "data")
          h1 h2 h3 h4 h5 h6 h7 h8 h9 h10 h11]
  all_goals simp [processText, hs]

/-- The best-bid/offer ticker variant is never dispatched by the engine:
its structural guard is only consulted when the `data` field is a JSON
string, and then every keyed lookup yields `Null`, so the guard is
false. -/
lemma bookTicker_never_dispatched (env : LoopEnv) (msg : String)
    (p : Except String Json) (ev : WebsocketEvent)
    (h : ev ∈ (processText env msg p).1) : ev.kind ≠ .bookTicker := by
  rcases p with e | v
  · simp [processText] at h
  · cases hs : v.index "stream"
    case str streamName =>
      cases ha : (v.index "data").asStr
      case none => simp [processText, hs, ha] at h
      case some dataMsg =>
        cases hc : classify msg streamName (v.index "data")
        case none => simp [processText, hs, ha, hc] at h
        case some k =>
          simp only [processText, hs, ha, hc] at h
          rw [dispatch_kind env k dataMsg ev h]
          intro hk
          subst hk
          have hsix := classify_bookTicker msg streamName (v.index "data") hc
          rw [asStr_sixKeyCheck ha] at hsix
          exact Bool.noConfusion hsix
    all_goals simp [processText, hs] at h

/-! ### Claim theorems -/

/-- Claim C1 (code bug): for the spec's aggTrade envelope, whose `data`
field is a JSON object, the engine produces zero events — not one
`Trade` event — because dispatch requires `value.as_str()` to succeed,
and an object `data` falls into the `None` arm and is dropped.  This
holds for every decoder and callback, and a full run over this single
frame ends cleanly with no callback invocation. -/
theorem aggTrade_object_data_produces_no_event (env : LoopEnv) :
    processText env c1msg (.ok c1json) = ([], none) ∧
    eventLoop env true [true, false] [.ok (.text c1msg (.ok c1json))]
      = ⟨.ok, [], 1⟩ :=
  ⟨rfl, rfl⟩

/-- Claim C2 (counterexample): a text frame carrying a bare array of
24hrTicker objects — no `{stream, data}` envelope — produces zero events
and no `DayTicker` event: classification is never attempted on
unenveloped payloads. -/
theorem bare_dayTicker_array_produces_no_event :
    processText env0 c2msg (.ok c2json) = ([], none) :=
  rfl

/-- Claim C2 (amended): every text frame whose top-level JSON value has
no string `stream` field is silently ignored by the engine — the
top-level value is never classified and no event is produced. -/
theorem non_envelope_frames_ignored (env : LoopEnv) (msg : String)
    (v : Json) (h : ∀ s, v.index "stream" ≠ Json.str s) :
    processText env msg (.ok v) = ([], none) := by
  cases hs : v.index "stream"
  case str s => exact absurd hs (h s)
  all_goals simp [processText, hs]

/-- Claim C2 (witness): a bare 24hrTicker object frame is ignored. -/
theorem non_envelope_frames_ignored_witness :
    processText env0 c2wmsg (.ok c2wjson) = ([], none) :=
  non_envelope_frames_ignored env0 c2wmsg c2wjson
    (fun _ h => Json.noConfusion h)

/-- Claim C3 (code bug): an enveloped payload object with all six keys
`u, s, b, B, a, A` (and the marker `kline` elsewhere in the raw text) is
not classified as a best-bid/offer ticker: because its `data` is an
object, `value.as_str()` fails and the frame is dropped before the
six-key check is even consulted, for every decoder and callback. -/
theorem six_key_object_data_produces_no_event (env : LoopEnv) :
    processText env c3msg (.ok c3json) = ([], none) ∧
    eventLoop env true [true, false] [.ok (.text c3msg (.ok c3json))]
      = ⟨.ok, [], 1⟩ :=
  ⟨rfl, rfl⟩

/-- Claim C4: a close frame arriving after `k` frames that each
dispatched one event ends the run with the "Disconnected" error carrying
the rendered close reason, after exactly `k` callback invocations and
exactly `k + 1` reads — no further frames are read and the remaining
flag state is irrelevant. -/
theorem close_frame_terminates_with_peer_closed_error (env : LoopEnv)
    (good : List ReadResult) (reason : Option String)
    (rest : List ReadResult) (fsAfter : List Bool)
    (h : ∀ f ∈ good, ∃ m ev, f = Except.ok m ∧
        processMessage env m = ([ev], none)) :
    (eventLoop env true (List.replicate (good.length + 1) true ++ fsAfter)
        (good ++ Except.ok (Message.close reason) :: rest)).outcome
      = .err (.msg ("Disconnected " ++ debugFmt reason)) ∧
    (eventLoop env true (List.replicate (good.length + 1) true ++ fsAfter)
        (good ++ Except.ok (Message.close reason) :: rest)).callbacks.length
      = good.length ∧
    (eventLoop env true (List.replicate (good.length + 1) true ++ fsAfter)
        (good ++ Except.ok (Message.close reason) :: rest)).framesRead
      = good.length + 1 := by
  induction good with
  | nil =>
    have hstep := eventLoop_read_err env (Message.close reason) []
      (Err.msg ("Disconnected " ++ debugFmt reason)) fsAfter rest rfl
    refine ⟨?_, ?_, ?_⟩ <;> simp [hstep]
  | cons g gs ih =>
    obtain ⟨m, ev, hg, hm⟩ := h g (List.mem_cons_self g gs)
    subst hg
    have ih3 := ih (fun f hf => h f (List.mem_cons_of_mem _ hf))
    have hstep := eventLoop_read_cont env m [ev]
      (List.replicate (gs.length + 1) true ++ fsAfter)
      (gs ++ Except.ok (Message.close reason) :: rest) hm
    refine ⟨?_, ?_, ?_⟩
    · show (eventLoop env true
          (true :: (List.replicate (gs.length + 1) true ++ fsAfter))
          (Except.ok m :: (gs ++ Except.ok (Message.close reason) :: rest))).outcome = _
      rw [hstep]
      exact ih3.1
    · show (eventLoop env true
          (true :: (List.replicate (gs.length + 1) true ++ fsAfter))
          (Except.ok m :: (gs ++ Except.ok (Message.close reason) :: rest))).callbacks.length = _
      rw [hstep]
      simp [ih3.2.1]
    · show (eventLoop env true
          (true :: (List.replicate (gs.length + 1) true ++ fsAfter))
          (Except.ok m :: (gs ++ Except.ok (Message.close reason) :: rest))).framesRead = _
      rw [hstep]
      simp only [List.length_cons, ih3.2.2]

/-- Claim C4 (witness): one dispatched frame, then a close frame with
reason "going away": the run errors with the rendered reason after one
callback and two reads. -/
theorem close_frame_terminates_witness :
    (eventLoop env0 true [true, true]
        [.ok goodFrame, .ok (.close (some "going away"))]).outcome
      = .err (.msg "Disconnected Some(going away)") ∧
    (eventLoop env0 true [true, true]
        [.ok goodFrame, .ok (.close (some "going away"))]).callbacks.length
      = 1 ∧
    (eventLoop env0 true [true, true]
        [.ok goodFrame, .ok (.close (some "going away"))]).framesRead = 2 :=
  close_frame_terminates_with_peer_closed_error env0 [.ok goodFrame]
    (some "going away") [] []
    (by
      intro f hf
      simp only [List.mem_singleton] at hf
      subst hf
      exact ⟨goodFrame, goodEvent, rfl, rfl⟩)

/-- Claim C5: a transport error on read, a JSON parse failure of a text
frame, and any error raised while processing a frame (typed-decode
failure or consumer-callback failure) each end the run immediately with
that error: exactly one read happens, the frame is not skipped, and the
callback trace is exactly the invocations that frame made (never a
retry). -/
theorem read_parse_decode_callback_errors_terminal (env : LoopEnv)
    (fs : List Bool) (frames : List ReadResult) (e pe : String)
    (msg : String) (m : Message) (evs : List WebsocketEvent) (er : Err) :
    eventLoop env true (true :: fs) (.error e :: frames)
      = ⟨.err (.transport e), [], 1⟩ ∧
    eventLoop env true (true :: fs) (.ok (.text msg (.error pe)) :: frames)
      = ⟨.err (.json pe), [], 1⟩ ∧
    (processMessage env m = (evs, some er) →
      eventLoop env true (true :: fs) (.ok m :: frames)
        = ⟨.err er, evs, 1⟩) :=
  ⟨rfl,
   eventLoop_read_err env (.text msg (.error pe)) [] (.json pe) fs frames rfl,
   fun h => eventLoop_read_err env m evs er fs frames h⟩

/-- Claim C5 (witness): with a callback that fails, a frame that
dispatches one event ends the run with the callback's error after that
single invocation and a single read. -/
theorem errors_terminal_witness :
    eventLoop envCb true [true] [.ok goodFrame]
      = ⟨.err (.msg "callback failed"), [goodEvent], 1⟩ :=
  (read_parse_decode_callback_errors_terminal envCb [] [] "io" "pe" "x"
      goodFrame [goodEvent] (.msg "callback failed")).2.2 rfl

/-- Claim C6: a false flag read at the between-frames poll exits the
loop cleanly with success, zero reads and zero callback invocations; a
ping, pong or binary frame is ignored and the loop continues on the
remaining flags and frames. -/
theorem flag_false_clean_exit_and_control_frames_ignored (env : LoopEnv)
    (sock : Bool) (fs : List Bool) (frames : List ReadResult) :
    eventLoop env sock (false :: fs) frames = ⟨.ok, [], 0⟩ ∧
    eventLoop env true (true :: fs) (.ok .ping :: frames)
      = ⟨(eventLoop env true fs frames).outcome,
         (eventLoop env true fs frames).callbacks,
         (eventLoop env true fs frames).framesRead + 1⟩ ∧
    eventLoop env true (true :: fs) (.ok .pong :: frames)
      = ⟨(eventLoop env true fs frames).outcome,
         (eventLoop env true fs frames).callbacks,
         (eventLoop env true fs frames).framesRead + 1⟩ ∧
    eventLoop env true (true :: fs) (.ok .binary :: frames)
      = ⟨(eventLoop env true fs frames).outcome,
         (eventLoop env true fs frames).callbacks,
         (eventLoop env true fs frames).framesRead + 1⟩ := by
  refine ⟨rfl, ?_, ?_, ?_⟩
  · simpa using eventLoop_read_cont env .ping [] fs frames rfl
  · simpa using eventLoop_read_cont env .pong [] fs frames rfl
  · simpa using eventLoop_read_cont env .binary [] fs frames rfl

/-- Claim C7: every frame is dispatched to at most one event; a
structurally valid frame on which no classification rule fires (the
exact fall-through condition of the engine) produces zero events and no
error; and a frame whose processing yields no event and no error lets
the loop continue on the remaining flags and frames, counting only its
read. -/
theorem at_most_one_event_and_silent_drop (env : LoopEnv) (m : Message)
    (msg : String) (v : Json) (fs : List Bool) (frames : List ReadResult) :
    (processMessage env m).1.length ≤ 1 ∧
    (matchesNoRule msg v = true → processText env msg (.ok v) = ([], none)) ∧
    (processMessage env m = ([], none) →
      eventLoop env true (true :: fs) (.ok m :: frames)
        = ⟨(eventLoop env true fs frames).outcome,
           (eventLoop env true fs frames).callbacks,
           (eventLoop env true fs frames).framesRead + 1⟩) :=
  ⟨processMessage_length env m,
   fun h => matchesNoRule_drop env msg v h,
   fun h => by simpa using eventLoop_read_cont env m [] fs frames h⟩

/-- Claim C7 (witness): a structurally valid enveloped frame matching no
rule is silently dropped and the loop continues. -/
theorem at_most_one_event_and_silent_drop_witness :
    (processMessage env0 c7frame).1.length ≤ 1 ∧
    processText env0 c7msg (.ok c7json) = ([], none) ∧
    eventLoop env0 true [true] [.ok c7frame] = ⟨.pending, [], 1⟩ :=
  ⟨(at_most_one_event_and_silent_drop env0 c7frame c7msg c7json [] []).1,
   (at_most_one_event_and_silent_drop env0 c7frame c7msg c7json [] []).2.1 rfl,
   (at_most_one_event_and_silent_drop env0 c7frame c7msg c7json [] []).2.2 rfl⟩

/-- Claim C8 (counterexample): when URL parsing fails, `connect` fails
with the propagated parse error, which is not the handshake error — so
"any failure yields a HandshakeError" is false — though the stored
socket does stay empty. -/
theorem url_parse_failure_not_handshake_error :
    connect st0 "btcusdt@aggTrade" badParse wsOk
      = (st0, .error (.url "relative URL without a base")) ∧
    isHandshakeError (.url "relative URL without a base") = false ∧
    (connect st0 "btcusdt@aggTrade" badParse wsOk).1.socket = none :=
  ⟨rfl, rfl, rfl⟩

/-- Claim C8 (amended): `connect` builds the target URL by concatenating
the fixed base streaming URL with the caller's suffix; a URL-parse
failure propagates the parse error itself with the state unchanged, a
handshake failure yields the "Error during handshake" error carrying the
cause with the state unchanged (an empty socket stays empty), and only
success stores the socket. -/
theorem connect_url_concat_and_failure_modes (σ : Type) (st : WSState σ)
    (endpoint : String) (up : String → Except String String)
    (wc : String → Except String σ) (u e : String) (s : σ) :
    (up (WEBSOCKET_URL ++ endpoint) = .error e →
      connect st endpoint up wc = (st, .error (.url e))) ∧
    (up (WEBSOCKET_URL ++ endpoint) = .ok u → wc u = .error e →
      connect st endpoint up wc
        = (st, .error (.msg ("Error during handshake " ++ e)))) ∧
    (up (WEBSOCKET_URL ++ endpoint) = .ok u → wc u = .ok s →
      connect st endpoint up wc = (⟨some s⟩, .ok ())) := by
  refine ⟨fun h => ?_, fun h1 h2 => ?_, fun h1 h2 => ?_⟩ <;>
    simp [connect, *]

/-- Claim C8 (witness): a handshake refusal produces the handshake error
with the cause, leaving the empty socket empty. -/
theorem connect_url_concat_witness :
    connect st0 "btcusdt@aggTrade" okParse wsFail
      = (st0, .error (.msg ("Error during handshake " ++ "connection refused"))) :=
  (connect_url_concat_and_failure_modes Nat st0 "btcusdt@aggTrade" okParse
      wsFail (WEBSOCKET_URL ++ "btcusdt@aggTrade") "connection refused" 0).2.1
    rfl rfl

/-- Claim C9 (counterexample): a successful `disconnect` leaves the
socket slot occupied, so a second `disconnect` on the same instance
succeeds again instead of failing with the not-connected error. -/
theorem disconnect_keeps_socket_and_second_disconnect_succeeds :
    (disconnect st1 closeOk).2 = .ok () ∧
    (disconnect st1 closeOk).1.socket = some 5 ∧
    (disconnect (disconnect st1 closeOk).1 closeOk).2 = .ok () :=
  ⟨rfl, rfl, rfl⟩

/-- Claim C9 (amended): `disconnect` fails with the not-connected error
exactly when no socket is held, and never changes the stored state — a
successful close leaves the socket handle in place, so the next
`disconnect` attempts another close instead of failing with the
not-connected error. -/
theorem disconnect_not_connected_iff_no_socket (σ : Type) (st : WSState σ)
    (cs : σ → Except String Unit) :
    ((disconnect st cs).2 = .error (.msg "Not able to close the connection")
        ↔ st.socket = none) ∧
    (disconnect st cs).1 = st ∧
    (∀ s, st.socket = some s → cs s = .ok () →
      disconnect st cs = (st, .ok ())) := by
  obtain ⟨sock⟩ := st
  cases sock with
  | none =>
    refine ⟨by simp [disconnect], rfl, ?_⟩
    intro s hs
    exact absurd hs (by simp)
  | some s0 =>
    refine ⟨?_, ?_, ?_⟩
    · cases hcs : cs s0 <;> simp [disconnect, hcs]
    · cases hcs : cs s0 <;> simp [disconnect, hcs]
    · intro s hs hok
      simp only [Option.some.injEq] at hs
      subst hs
      simp [disconnect, hok]

/-- Claim C9 (witness): disconnecting a held socket with a successful
close primitive returns success with the state unchanged. -/
theorem disconnect_not_connected_witness :
    disconnect st1 closeOk = (st1, .ok ()) :=
  (disconnect_not_connected_iff_no_socket Nat st1 closeOk).2.2 5 rfl rfl

/-- Claim C10: when no socket is held, the loop never reads a frame,
never invokes the callback and never errors; it returns success as soon
as a flag read is false, and while every flag read is true it just
spins (still running when the modelled flag trace ends). -/
theorem no_socket_loop_spins_without_reads (env : LoopEnv)
    (flags : List Bool) (frames : List ReadResult) :
    (eventLoop env false flags frames).framesRead = 0 ∧
    (eventLoop env false flags frames).callbacks = [] ∧
    (∀ e, (eventLoop env false flags frames).outcome ≠ .err e) ∧
    (false ∈ flags → (eventLoop env false flags frames).outcome = .ok) ∧
    ((∀ f ∈ flags, f = true) →
      (eventLoop env false flags frames).outcome = .pending) := by
  induction flags with
  | nil =>
    exact ⟨rfl, rfl, fun e h => Outcome.noConfusion h,
      fun hmem => absurd hmem (List.not_mem_nil false), fun _ => rfl⟩
  | cons f fs ih =>
    cases f
    case false =>
      refine ⟨rfl, rfl, fun e h => Outcome.noConfusion h, fun _ => rfl,
        fun hall => ?_⟩
      exact absurd (hall false (List.mem_cons_self false fs)) (by decide)
    case true =>
      have hstep : eventLoop env false (true :: fs) frames
          = eventLoop env false fs frames := rfl
      rw [hstep]
      exact ⟨ih.1, ih.2.1, ih.2.2.1,
        fun hmem => ih.2.2.2.1 (by simpa using hmem),
        fun hall => ih.2.2.2.2 (fun g hg => hall g (List.mem_cons_of_mem _ hg))⟩

/-- Claim C10 (witness): with no socket and flag reads true then false,
the run ends in success having read nothing, even though a frame (here a
transport error) was available. -/
theorem no_socket_loop_witness :
    (eventLoop env0 false [true, false] [.error "io"]).framesRead = 0 ∧
    (eventLoop env0 false [true, false] [.error "io"]).outcome = .ok :=
  ⟨(no_socket_loop_spins_without_reads env0 [true, false] [.error "io"]).1,
   (no_socket_loop_spins_without_reads env0 [true, false]
      [.error "io"]).2.2.2.1 (by simp)⟩

end BinanceWS
